import Mathlib

/-!
Shallow embedding of `src/components/LiveTradingDemo.tsx`.

The component's React state hooks become the fields of `DemoState`; the
event handlers and the polling effect become functions on that state.
JavaScript numbers are embedded as `ℚ` (all arithmetic in the component is
exact on the values involved), `Math.floor` as `Int.floor`, the
`Record<string, number>` positions map as a total function `String → ℤ`
(reads go through `|| 0`, so a missing key is `0`).  Nondeterministic
inputs of a tick — the quote fetch outcome, the fallback quote, the random
jitter draw, the analysis fetch outcome, the fallback analysis, the clock —
are passed in as oracle parameters.
-/

namespace LiveTradingDemo

/-- Embeds `'BUY' | 'SELL' | 'HOLD'` (LiveTradingDemo.tsx line 24). -/
inductive TradeAction
| BUY
| SELL
| HOLD
deriving DecidableEq, Repr

/-- The analysis result used by `analyzeAndTrade` (type `MarketAnalysis` from `../lib/api`):
an action, a confidence score and a textual rationale. -/
structure MarketAnalysis where
  action : TradeAction
  confidence : ℚ
  reasoning : String
deriving DecidableEq, Repr

/-- Embeds `TradeSignal` (lines 23-29).  The `Date` timestamp is abstracted as `ℕ`. -/
structure TradeSignal where
  action : TradeAction
  confidence : ℚ
  price : ℚ
  reasoning : String
  timestamp : ℕ
deriving DecidableEq, Repr

/-- Embeds `StockQuote` from `../lib/api` as used here: symbol, price, volume, changePercent. -/
structure StockQuote where
  symbol : String
  price : ℚ
  volume : ℤ
  changePercent : String
deriving DecidableEq, Repr

/-- Embeds `PricePoint` (lines 31-36).  The `toLocaleTimeString` label is abstracted as `ℕ`. -/
structure PricePoint where
  time : ℕ
  price : ℚ
  volume : ℤ
  prediction : ℚ
deriving DecidableEq, Repr

/-- The trade object built in `executeTrade` (lines 194-202). -/
structure TradeRec where
  symbol : String
  action : TradeAction
  quantity : ℤ
  price : ℚ
  timestamp : ℕ
  confidence : ℚ
  reasoning : String
deriving DecidableEq, Repr

/-- The `portfolio` state hook (lines 41-45). -/
structure Portfolio where
  cash : ℚ
  positions : String → ℤ
  totalValue : ℚ

/-- Embeds `apiStatus` (line 52). -/
inductive ApiStatus
| connected
| fallback
| loading
deriving DecidableEq, Repr

/-- All React state hooks of the component (lines 39-52). -/
structure DemoState where
  isRunning : Bool
  selectedSymbol : String
  portfolio : Portfolio
  priceData : List PricePoint
  currentSignal : Option TradeSignal
  tradeHistory : List TradeRec
  aiThinking : Bool
  currentQuote : Option StockQuote
  apiStatus : ApiStatus

/-- The initial hook values: not running, symbol AAPL, cash 10000, no positions,
empty histories, no signal, status loading. -/
def initialState : DemoState :=
  { isRunning := false
    selectedSymbol := "AAPL"
    portfolio := { cash := 10000, positions := fun _ => 0, totalValue := 10000 }
    priceData := []
    currentSignal := none
    tradeHistory := []
    aiThinking := false
    currentQuote := none
    apiStatus := ApiStatus.loading }

/-- The object-spread update `{...prev.positions, [selectedSymbol]: v}`
(lines 212-215, 223-227). -/
def setPos (positions : String → ℤ) (sym : String) (v : ℤ) : String → ℤ :=
  fun s => if s = sym then v else positions s

/-- The trade object built at lines 194-202: the component's symbol, the signal's
action/price/timestamp/confidence/reasoning, and the sized quantity
`Math.floor(portfolio.cash / signal.price / 10)` (line 191). -/
def mkTrade (s : DemoState) (signal : TradeSignal) : TradeRec :=
  { symbol := s.selectedSymbol
    action := signal.action
    quantity := ⌊s.portfolio.cash / signal.price / 10⌋
    price := signal.price
    timestamp := signal.timestamp
    confidence := signal.confidence
    reasoning := signal.reasoning }

/-- Embeds `executeTrade` (lines 190-233).  `quantity = Math.floor(portfolio.cash / signal.price / 10)`;
when it is positive a trade record is prepended to the history (keeping the first 9 old
entries, `[trade, ...prev.slice(0, 9)]`) and the portfolio is mutated: BUY debits
`quantity * price` from cash and credits the selected symbol's position; SELL credits
cash and floors the position at zero (`Math.max(0, ... - quantity)`).  When quantity
is not positive nothing at all happens. -/
def executeTrade (s : DemoState) (signal : TradeSignal) : DemoState :=
  let quantity : ℤ := ⌊s.portfolio.cash / signal.price / 10⌋
  if 0 < quantity then
    let trade : TradeRec := mkTrade s signal
    let s1 : DemoState := { s with tradeHistory := trade :: s.tradeHistory.take 9 }
    match signal.action with
    | TradeAction.BUY =>
        let cost : ℚ := (quantity : ℚ) * signal.price
        { s1 with portfolio :=
          { s1.portfolio with
            cash := s1.portfolio.cash - cost
            positions := setPos s1.portfolio.positions s.selectedSymbol
              (s1.portfolio.positions s.selectedSymbol + quantity) } }
    | TradeAction.SELL =>
        let revenue : ℚ := (quantity : ℚ) * signal.price
        { s1 with portfolio :=
          { s1.portfolio with
            cash := s1.portfolio.cash + revenue
            positions := setPos s1.portfolio.positions s.selectedSymbol
              (max 0 (s1.portfolio.positions s.selectedSymbol - quantity)) } }
    | TradeAction.HOLD => s1
  else s

/-- Outcome of the `getMarketAnalysis` call inside `analyzeAndTrade`:
a non-null result, a null result, or a thrown error. -/
inductive RemoteAnalysis
| success (a : MarketAnalysis)
| unavailable
| failure
deriving DecidableEq, Repr

/-- Which analysis `analyzeAndTrade` ends up publishing, and whether it got there
through the catch block (lines 141-152 and 172-187): when the status is `connected`
the remote result is used if non-null, the fallback if null, and the fallback via
the catch block if the call throws; when the status is not `connected` no remote
request is made and the fallback is used directly.  The boolean is true exactly on
the catch path, which publishes the signal but never trades. -/
def resolveAnalysis (status : ApiStatus) (remote : RemoteAnalysis) (fb : MarketAnalysis) :
    MarketAnalysis × Bool :=
  match status, remote with
  | ApiStatus.connected, RemoteAnalysis.success a => (a, false)
  | ApiStatus.connected, RemoteAnalysis.unavailable => (fb, false)
  | ApiStatus.connected, RemoteAnalysis.failure => (fb, true)
  | _, _ => (fb, false)

/-- The signal object built at lines 157-163 (and 177-183). -/
def mkSignal (a : MarketAnalysis) (price : ℚ) (now : ℕ) : TradeSignal :=
  { action := a.action
    confidence := a.confidence
    price := price
    reasoning := a.reasoning
    timestamp := now }

/-- The tail of `analyzeAndTrade` that runs after the 1.5 s `setTimeout` resolves
(lines 157-171, and 177-186 on the catch path): publish the signal, clear the
thinking flag, and — on the non-error path only — execute a trade when
`confidence > 75 && action !== 'HOLD'`.  Note there is no `isRunning` check here. -/
def publishAnalysis (s : DemoState) (price : ℚ) (a : MarketAnalysis) (errorPath : Bool)
    (now : ℕ) : DemoState :=
  let signal := mkSignal a price now
  let s1 : DemoState := { s with currentSignal := some signal, aiThinking := false }
  if errorPath then s1
  else if 75 < a.confidence ∧ a.action ≠ TradeAction.HOLD then executeTrade s1 signal
  else s1

/-- Embeds `analyzeAndTrade` (lines 138-188) run to completion in one step: set the thinking
flag, resolve which analysis to use, then publish (and possibly trade). -/
def analyzeAndTrade (s : DemoState) (price : ℚ) (remote : RemoteAnalysis)
    (fb : MarketAnalysis) (now : ℕ) : DemoState :=
  let s0 : DemoState := { s with aiThinking := true }
  let res := resolveAnalysis s0.apiStatus remote fb
  publishAnalysis s0 price res.1 res.2 now

/-- Outcome of the `getStockQuote` call inside `fetchRealData`: a truthy quote,
a null result, or a thrown error. -/
inductive QuoteOutcome
| success (q : StockQuote)
| nullResult
| failure
deriving DecidableEq, Repr

/-- Embeds `Array.prototype.slice(-n)`: the last `n` elements. -/
def sliceLast (n : ℕ) (l : List α) : List α := l.drop (l.length - n)

/-- The price point appended by `fetchRealData`: prediction is
`price + (Math.random() - 0.5) * scale` with scale 2 on the live path and 5 on the
fallback paths; `r` is the random draw. -/
def mkPricePoint (now : ℕ) (price : ℚ) (volume : ℤ) (scale : ℚ) (r : ℚ) : PricePoint :=
  { time := now
    price := price
    volume := volume
    prediction := price + (r - 1/2) * scale }

/-- The quote a tick ends up using: the fetched one on success, the fallback
quote otherwise. -/
def quoteOf (o : QuoteOutcome) (fbq : StockQuote) : StockQuote :=
  match o with
  | QuoteOutcome.success q => q
  | _ => fbq

/-- The in-flight remainder of a dispatched `analyzeAndTrade` call: everything
before the 1.5 s delay has run (the analysis is resolved), and `publishAnalysis`
is still pending. -/
structure Pending where
  price : ℚ
  analysis : MarketAnalysis
  errorPath : Bool
deriving DecidableEq, Repr

/-- The synchronous part of one `fetchRealData` tick (lines 60-127 up to the
`analyzeAndTrade` call, plus the part of `analyzeAndTrade` that runs before its
awaited delay): set status loading, then on a truthy quote mark `connected`,
store the quote and append a capped price point (`[...prev, pt].slice(-50)`);
on a null quote or a thrown error mark `fallback` and do the same with the
fallback quote.  Returns the new state and the pending publish step. -/
def tickDispatch (s : DemoState) (o : QuoteOutcome) (fbq : StockQuote) (r : ℚ)
    (remote : RemoteAnalysis) (fba : MarketAnalysis) (now : ℕ) : DemoState × Pending :=
  let s0 : DemoState := { s with apiStatus := ApiStatus.loading }
  match o with
  | QuoteOutcome.success q =>
      let s1 : DemoState :=
        { s0 with
          currentQuote := some q
          apiStatus := ApiStatus.connected
          priceData := sliceLast 50 (s0.priceData ++ [mkPricePoint now q.price q.volume 2 r]) }
      let s2 : DemoState := { s1 with aiThinking := true }
      let res := resolveAnalysis s2.apiStatus remote fba
      (s2, { price := q.price, analysis := res.1, errorPath := res.2 })
  | _ =>
      let s1 : DemoState :=
        { s0 with
          apiStatus := ApiStatus.fallback
          currentQuote := some fbq
          priceData := sliceLast 50 (s0.priceData ++ [mkPricePoint now fbq.price fbq.volume 5 r]) }
      let s2 : DemoState := { s1 with aiThinking := true }
      let res := resolveAnalysis s2.apiStatus remote fba
      (s2, { price := fbq.price, analysis := res.1, errorPath := res.2 })

/-- One whole tick run to completion with no interleaving: dispatch, then publish. -/
def fetchRealData (s : DemoState) (o : QuoteOutcome) (fbq : StockQuote) (r : ℚ)
    (remote : RemoteAnalysis) (fba : MarketAnalysis) (now : ℕ) : DemoState :=
  let d := tickDispatch s o fbq r remote fba now
  publishAnalysis d.1 d.2.price d.2.analysis d.2.errorPath now

/-- Embeds `startDemo` (lines 235-241): run, clear price data, trades and signal
(portfolio kept). -/
def startDemo (s : DemoState) : DemoState :=
  { s with isRunning := true, priceData := [], tradeHistory := [], currentSignal := none }

/-- Embeds `stopDemo` (lines 243-246): stop; everything else retained. -/
def stopDemo (s : DemoState) : DemoState :=
  { s with isRunning := false }

/-- Embeds `resetDemo` (lines 248-259): stop, clear price data, trades and signal, and
restore the initial portfolio. -/
def resetDemo (s : DemoState) : DemoState :=
  { s with
    isRunning := false
    priceData := []
    tradeHistory := []
    currentSignal := none
    portfolio := { cash := 10000, positions := fun _ => 0, totalValue := 10000 } }

/-- The component together with its in-flight asynchronous work: the state hooks
plus the queue of dispatched-but-unpublished `analyzeAndTrade` continuations.
`stopDemo` and `resetDemo` leave this queue untouched — `analyzeAndTrade` has no
cancellation and its continuation never re-checks `isRunning` (lines 138-188). -/
structure SysState where
  demo : DemoState
  pending : List Pending

/-- The mounted component before any interaction. -/
def initialSys : SysState :=
  { demo := initialState, pending := [] }

/-- Observable events of the component.  `start` and `selectSymbol` carry a tick's
oracle inputs because changing `isRunning` or `selectedSymbol` re-runs the
`useEffect` at lines 57-136, whose body performs an immediate `fetchRealData()`
(line 130) before installing the 30-second interval; `timerTick` is one firing of
that interval, which exists only while the effect ran with `isRunning` true;
`deliver` is the resumption of the oldest in-flight `analyzeAndTrade` after its
1.5 s delay. -/
inductive Event
| start (o : QuoteOutcome) (fbq : StockQuote) (r : ℚ) (remote : RemoteAnalysis)
    (fba : MarketAnalysis) (now : ℕ)
| stop
| reset
| selectSymbol (sym : String) (o : QuoteOutcome) (fbq : StockQuote) (r : ℚ)
    (remote : RemoteAnalysis) (fba : MarketAnalysis) (now : ℕ)
| timerTick (o : QuoteOutcome) (fbq : StockQuote) (r : ℚ) (remote : RemoteAnalysis)
    (fba : MarketAnalysis) (now : ℕ)
| deliver (now : ℕ)

/-- Re-run of the polling `useEffect` body (lines 57-136): if not running it does
nothing (line 58); otherwise it immediately dispatches one `fetchRealData` tick and
queues the tick's analysis continuation. -/
def runEffect (d : DemoState) (o : QuoteOutcome) (fbq : StockQuote) (r : ℚ)
    (remote : RemoteAnalysis) (fba : MarketAnalysis) (now : ℕ)
    (pend : List Pending) : SysState :=
  if d.isRunning then
    let t := tickDispatch d o fbq r remote fba now
    { demo := t.1, pending := pend ++ [t.2] }
  else
    { demo := d, pending := pend }

/-- One event-loop step of the component. -/
def sysStep (sys : SysState) : Event → SysState
  | Event.start o fbq r remote fba now =>
      runEffect (startDemo sys.demo) o fbq r remote fba now sys.pending
  | Event.stop =>
      { demo := stopDemo sys.demo, pending := sys.pending }
  | Event.reset =>
      { demo := resetDemo sys.demo, pending := sys.pending }
  | Event.selectSymbol sym o fbq r remote fba now =>
      runEffect { sys.demo with selectedSymbol := sym } o fbq r remote fba now sys.pending
  | Event.timerTick o fbq r remote fba now =>
      runEffect sys.demo o fbq r remote fba now sys.pending
  | Event.deliver now =>
      match sys.pending with
      | [] => sys
      | p :: rest =>
          { demo := publishAnalysis sys.demo p.price p.analysis p.errorPath now
            pending := rest }

/-- The data-source status a tick settles on: `connected` when the quote fetch
returns a truthy quote, `fallback` on a null result or a thrown error. -/
def tickStatus (o : QuoteOutcome) : ApiStatus :=
  match o with
  | QuoteOutcome.success _ => ApiStatus.connected
  | _ => ApiStatus.fallback

/-- The price point a tick appends (jitter scale 2 on the live path, 5 on the
fallback paths). -/
def tickPoint (o : QuoteOutcome) (fbq : StockQuote) (r : ℚ) (now : ℕ) : PricePoint :=
  match o with
  | QuoteOutcome.success q => mkPricePoint now q.price q.volume 2 r
  | _ => mkPricePoint now fbq.price fbq.volume 5 r

/-! Concrete fixtures used by the closed theorems below. -/

/-- A fallback quote priced 150.00, as in the spec's fallback scenario. -/
def fbq150 : StockQuote :=
  { symbol := "AAPL", price := 150, volume := 1000000, changePercent := "0.00" }

/-- A fallback analysis recommending BUY at confidence 80. -/
def fbaBuy80 : MarketAnalysis :=
  { action := TradeAction.BUY, confidence := 80, reasoning := "Fallback momentum" }

/-- A fallback quote priced 2000, expensive enough that the sized quantity
`floor(10000 / 2000 / 10)` is zero. -/
def fbq2000 : StockQuote :=
  { symbol := "AAPL", price := 2000, volume := 1000, changePercent := "0.00" }

/-- The first tick after mounting and pressing Start, with the quote source down
(thrown error), fallback quote 150.00 and fallback analysis BUY/80. -/
def c4FirstTick : DemoState :=
  fetchRealData (startDemo initialState) QuoteOutcome.failure fbq150 (1/2)
    RemoteAnalysis.unavailable fbaBuy80 0

/-- A tick on the initial portfolio where the published fallback signal is BUY at
confidence 80 but the quote price 2000 sizes the trade to quantity zero. -/
def c1Tick : DemoState :=
  fetchRealData initialState QuoteOutcome.failure fbq2000 (1/2)
    RemoteAnalysis.unavailable fbaBuy80 0

/-- Press Start with the quote source down: the immediate tick appends a fallback
price point and leaves one analysis continuation in flight. -/
def c2Started : SysState :=
  sysStep initialSys (Event.start QuoteOutcome.failure fbq150 (1/2)
    RemoteAnalysis.unavailable fbaBuy80 0)

/-- Press Stop while that tick's analysis is still inside its 1.5 s delay. -/
def c2Stopped : SysState :=
  sysStep c2Started Event.stop

/-- The delayed analysis continuation then resumes after Stop. -/
def c2Delivered : SysState :=
  sysStep c2Stopped (Event.deliver 1)

/-- A running session that has not yet recorded any price point. -/
def c9Running : SysState :=
  { demo := { initialState with isRunning := true }, pending := [] }

/-- The user picks TSLA in the symbol dropdown while the session is running. -/
def c9Selected : SysState :=
  sysStep c9Running (Event.selectSymbol "TSLA" QuoteOutcome.failure fbq150 (1/2)
    RemoteAnalysis.unavailable fbaBuy80 5)

/-- A BUY signal at confidence 80, price 100, used to instantiate witnesses. -/
def wSigBuy100 : TradeSignal :=
  { action := TradeAction.BUY, confidence := 80, price := 100,
    reasoning := "strong buy", timestamp := 0 }

/-- A component state whose data-source status is `connected`. -/
def wConnected : DemoState :=
  { initialState with apiStatus := ApiStatus.connected }

/-- A remote analysis result, distinct from the fallback one. -/
def wRemoteA : MarketAnalysis :=
  { action := TradeAction.SELL, confidence := 60, reasoning := "remote" }

/-- A fallback analysis, distinct from the remote one. -/
def wFbA : MarketAnalysis :=
  { action := TradeAction.HOLD, confidence := 50, reasoning := "fallback" }

/-!
The definitions above read every state variable from the single current state.
The source component is subtler about reads: the polling `useEffect`
(deps `[isRunning, selectedSymbol]`, lines 57-136) closes over the
`fetchRealData` / `analyzeAndTrade` / `executeTrade` instances of the render it
ran in, and the interval keeps calling those instances until the effect re-runs
(which happens only when `isRunning` or `selectedSymbol` changes).  So the state
variables read inside them — `apiStatus` at line 145, `portfolio.cash` at
line 191, `selectedSymbol` at lines 146/151/176/195/214/226 — hold the values
committed when the effect last ran, not the tick's fresh values, while the
functional `setState` updaters (`setPriceData`, `setTradeHistory`,
`setPortfolio`, all written with `prev`) and the absolute setters always act on
fresh state.  The `...C` definitions below refine the model by making that
captured render explicit as a separate `closure` state; the earlier definitions
are the special case in which the closure coincides with the current state, as
on the first tick right after an effect run. -/

/-- Refines `executeTrade` (lines 190-233) with the closure reads explicit:
the sizing cash at line 191 and the trade's/position's symbol at
lines 195/214/226 come from the effect-run `closure`, while the histories and
the portfolio being updated are the fresh `prev` state `s`. -/
def executeTradeC (closure s : DemoState) (signal : TradeSignal) : DemoState :=
  let quantity : ℤ := ⌊closure.portfolio.cash / signal.price / 10⌋
  if 0 < quantity then
    let trade : TradeRec :=
      { symbol := closure.selectedSymbol
        action := signal.action
        quantity := quantity
        price := signal.price
        timestamp := signal.timestamp
        confidence := signal.confidence
        reasoning := signal.reasoning }
    let s1 : DemoState := { s with tradeHistory := trade :: s.tradeHistory.take 9 }
    match signal.action with
    | TradeAction.BUY =>
        let cost : ℚ := (quantity : ℚ) * signal.price
        { s1 with portfolio :=
          { s1.portfolio with
            cash := s1.portfolio.cash - cost
            positions := setPos s1.portfolio.positions closure.selectedSymbol
              (s1.portfolio.positions closure.selectedSymbol + quantity) } }
    | TradeAction.SELL =>
        let revenue : ℚ := (quantity : ℚ) * signal.price
        { s1 with portfolio :=
          { s1.portfolio with
            cash := s1.portfolio.cash + revenue
            positions := setPos s1.portfolio.positions closure.selectedSymbol
              (max 0 (s1.portfolio.positions closure.selectedSymbol - quantity)) } }
    | TradeAction.HOLD => s1
  else s

/-- Refines `Pending` for the closure model: an in-flight `analyzeAndTrade`
continuation carries the render closure it was created under, because its
trade step reads cash and symbol from that closure. -/
structure PendingC where
  closure : DemoState
  price : ℚ
  analysis : MarketAnalysis
  errorPath : Bool

/-- Refines `publishAnalysis`: the continuation after the 1.5 s delay
(lines 157-171, or 177-186 on the catch path) publishes the signal with
absolute setters on the fresh state `s`, and trades through `executeTradeC`
against the closure it captured. -/
def publishAnalysisC (p : PendingC) (s : DemoState) (now : ℕ) : DemoState :=
  let signal := mkSignal p.analysis p.price now
  let s1 : DemoState := { s with currentSignal := some signal, aiThinking := false }
  if p.errorPath then s1
  else if 75 < p.analysis.confidence ∧ p.analysis.action ≠ TradeAction.HOLD then
    executeTradeC p.closure s1 signal
  else s1

/-- Refines `analyzeAndTrade` (lines 138-188) run to completion: the status
check at line 145 reads `closure.apiStatus` — the value committed when the
polling effect last ran — not the status the current tick just settled. -/
def analyzeAndTradeC (closure s : DemoState) (price : ℚ) (remote : RemoteAnalysis)
    (fb : MarketAnalysis) (now : ℕ) : DemoState :=
  let s0 : DemoState := { s with aiThinking := true }
  let res := resolveAnalysis closure.apiStatus remote fb
  publishAnalysisC { closure := closure, price := price, analysis := res.1, errorPath := res.2 }
    s0 now

/-- Refines `tickDispatch`: the synchronous part of a tick updates fresh state
(functional `setPriceData`, absolute status/quote setters), but resolves which
analysis will be published against `closure.apiStatus` (line 145), because
`analyzeAndTrade` is the closure's instance. -/
def tickDispatchC (closure s : DemoState) (o : QuoteOutcome) (fbq : StockQuote) (r : ℚ)
    (remote : RemoteAnalysis) (fba : MarketAnalysis) (now : ℕ) : DemoState × PendingC :=
  let s0 : DemoState := { s with apiStatus := ApiStatus.loading }
  match o with
  | QuoteOutcome.success q =>
      let s1 : DemoState :=
        { s0 with
          currentQuote := some q
          apiStatus := ApiStatus.connected
          priceData := sliceLast 50 (s0.priceData ++ [mkPricePoint now q.price q.volume 2 r]) }
      let s2 : DemoState := { s1 with aiThinking := true }
      let res := resolveAnalysis closure.apiStatus remote fba
      (s2, { closure := closure, price := q.price, analysis := res.1, errorPath := res.2 })
  | _ =>
      let s1 : DemoState :=
        { s0 with
          apiStatus := ApiStatus.fallback
          currentQuote := some fbq
          priceData := sliceLast 50 (s0.priceData ++ [mkPricePoint now fbq.price fbq.volume 5 r]) }
      let s2 : DemoState := { s1 with aiThinking := true }
      let res := resolveAnalysis closure.apiStatus remote fba
      (s2, { closure := closure, price := fbq.price, analysis := res.1, errorPath := res.2 })

/-- One whole closure-model tick run to completion with no interleaving. -/
def fetchRealDataC (closure s : DemoState) (o : QuoteOutcome) (fbq : StockQuote) (r : ℚ)
    (remote : RemoteAnalysis) (fba : MarketAnalysis) (now : ℕ) : DemoState :=
  let d := tickDispatchC closure s o fbq r remote fba now
  publishAnalysisC d.2 d.1 now

/-- The component with its effect closure made explicit: the committed state,
the state captured when the polling effect last ran (whose instances the
interval keeps calling), and the in-flight continuations. -/
structure SysStateC where
  demo : DemoState
  closure : DemoState
  pending : List PendingC

/-- The mounted component before any interaction: the first effect run captures
the initial state. -/
def initialSysC : SysStateC :=
  { demo := initialState, closure := initialState, pending := [] }

/-- Re-run of the polling effect in the closure model: the re-run captures the
just-committed state `d` as the new closure and, if running, immediately
dispatches one tick under it (line 130). -/
def runEffectC (d : DemoState) (o : QuoteOutcome) (fbq : StockQuote) (r : ℚ)
    (remote : RemoteAnalysis) (fba : MarketAnalysis) (now : ℕ)
    (pend : List PendingC) : SysStateC :=
  if d.isRunning then
    let t := tickDispatchC d d o fbq r remote fba now
    { demo := t.1, closure := d, pending := pend ++ [t.2] }
  else
    { demo := d, closure := d, pending := pend }

/-- One event-loop step of the component in the closure model.  Interval ticks
(`timerTick`) reuse the existing effect closure — `setState` re-renders do not
re-run the effect, so the closure persists across all of that lifetime's ticks;
only `start`/`stop`/`reset`/`selectSymbol` change a dependency and re-capture it. -/
def sysStepC (sys : SysStateC) : Event → SysStateC
  | Event.start o fbq r remote fba now =>
      runEffectC (startDemo sys.demo) o fbq r remote fba now sys.pending
  | Event.stop =>
      { demo := stopDemo sys.demo, closure := stopDemo sys.demo, pending := sys.pending }
  | Event.reset =>
      { demo := resetDemo sys.demo, closure := resetDemo sys.demo, pending := sys.pending }
  | Event.selectSymbol sym o fbq r remote fba now =>
      runEffectC { sys.demo with selectedSymbol := sym } o fbq r remote fba now sys.pending
  | Event.timerTick o fbq r remote fba now =>
      if sys.demo.isRunning then
        let t := tickDispatchC sys.closure sys.demo o fbq r remote fba now
        { demo := t.1, closure := sys.closure, pending := sys.pending ++ [t.2] }
      else sys
  | Event.deliver now =>
      match sys.pending with
      | [] => sys
      | p :: rest =>
          { demo := publishAnalysisC p sys.demo now, closure := sys.closure, pending := rest }

/-- A fallback quote priced 100, used for the repeated-BUY overspending trace. -/
def c10Fbq : StockQuote :=
  { symbol := "AAPL", price := 100, volume := 1000, changePercent := "0.00" }

/-- Press Start with the quote source down: the effect captures the post-Start
state (cash 10000) as its closure and dispatches the first tick under it. -/
def c10Start : SysStateC :=
  sysStepC initialSysC (Event.start QuoteOutcome.failure c10Fbq (1/2)
    RemoteAnalysis.unavailable fbaBuy80 0)

/-- One interval tick at price 100 with fallback analysis BUY/80, followed by the
delivery of its analysis continuation. -/
def c10Pair (sys : SysStateC) (k : ℕ) : SysStateC :=
  sysStepC (sysStepC sys (Event.timerTick QuoteOutcome.failure c10Fbq (1/2)
    RemoteAnalysis.unavailable fbaBuy80 k)) (Event.deliver k)

/-- The session after Start, the delivery of the immediate tick's analysis, and
`k` further interval tick/delivery pairs: `k + 1` BUY trades in total, each sized
from the closure's frozen cash of 10000. -/
def c10Run : ℕ → SysStateC
  | 0 => sysStepC c10Start (Event.deliver 0)
  | Nat.succ k => c10Pair (c10Run k) (k + 1)

/-- A successful quote for the stale-status tick: the tick settles `connected`. -/
def c8Quote : StockQuote :=
  { symbol := "AAPL", price := 120, volume := 500, changePercent := "1.00" }

/-- A tick right after the effect ran on the freshly mounted component (captured
status `loading`): the quote fetch succeeds and the Analysis Source would return
a SELL/60 recommendation, yet the stale status check routes to the fallback. -/
def c8StaleTick : DemoState :=
  fetchRealDataC initialState initialState (QuoteOutcome.success c8Quote) fbq150 (1/2)
    (RemoteAnalysis.success wRemoteA) wFbA 3

/-! Basic lemmas about the embedded operations. -/

theorem length_sliceLast_le (n : ℕ) (l : List α) : (sliceLast n l).length ≤ n := by
  simp only [sliceLast, List.length_drop]
  omega

theorem length_sliceLast (n : ℕ) (l : List α) : (sliceLast n l).length = min l.length n := by
  simp only [sliceLast, List.length_drop]
  omega

theorem executeTrade_tradeHistory (s : DemoState) (sig : TradeSignal) :
    (executeTrade s sig).tradeHistory =
      if 0 < ⌊s.portfolio.cash / sig.price / 10⌋ then
        mkTrade s sig :: s.tradeHistory.take 9
      else s.tradeHistory := by
  obtain ⟨a, c, p, re, t⟩ := sig
  cases a <;> simp only [executeTrade] <;> split_ifs <;> rfl

theorem executeTrade_priceData (s : DemoState) (sig : TradeSignal) :
    (executeTrade s sig).priceData = s.priceData := by
  obtain ⟨a, c, p, re, t⟩ := sig
  cases a <;> simp only [executeTrade] <;> split_ifs <;> rfl

theorem executeTrade_currentSignal (s : DemoState) (sig : TradeSignal) :
    (executeTrade s sig).currentSignal = s.currentSignal := by
  obtain ⟨a, c, p, re, t⟩ := sig
  cases a <;> simp only [executeTrade] <;> split_ifs <;> rfl

theorem executeTrade_currentQuote (s : DemoState) (sig : TradeSignal) :
    (executeTrade s sig).currentQuote = s.currentQuote := by
  obtain ⟨a, c, p, re, t⟩ := sig
  cases a <;> simp only [executeTrade] <;> split_ifs <;> rfl

theorem executeTrade_apiStatus (s : DemoState) (sig : TradeSignal) :
    (executeTrade s sig).apiStatus = s.apiStatus := by
  obtain ⟨a, c, p, re, t⟩ := sig
  cases a <;> simp only [executeTrade] <;> split_ifs <;> rfl

/-- Claim C7: invoking Reset from any prior state restores cash to 10000, empties
all positions, and clears the price history, the trade history and the current
signal (and the session is no longer running). -/
theorem c7_reset (s : DemoState) :
    (resetDemo s).portfolio.cash = 10000 ∧
    (∀ sym, (resetDemo s).portfolio.positions sym = 0) ∧
    (resetDemo s).priceData = [] ∧
    (resetDemo s).tradeHistory = [] ∧
    (resetDemo s).currentSignal = none ∧
    (resetDemo s).isRunning = false := by
  refine ⟨rfl, fun sym => rfl, rfl, rfl, rfl, rfl⟩

/-- Claim C3: an executed trade with quantity `q = floor(cash / price / 10)` and
price `p` moves the ledger exactly as specified: BUY debits `q * p` from cash and
adds `q` to the selected symbol's position; SELL credits `q * p` to cash and sets
the position to `max 0 (old - q)`, which is never negative. -/
theorem c3_ledger (s : DemoState) (sig : TradeSignal)
    (hq : 0 < ⌊s.portfolio.cash / sig.price / 10⌋) :
    (sig.action = TradeAction.BUY →
      (executeTrade s sig).portfolio.cash =
        s.portfolio.cash - (⌊s.portfolio.cash / sig.price / 10⌋ : ℚ) * sig.price ∧
      (executeTrade s sig).portfolio.positions s.selectedSymbol =
        s.portfolio.positions s.selectedSymbol + ⌊s.portfolio.cash / sig.price / 10⌋) ∧
    (sig.action = TradeAction.SELL →
      (executeTrade s sig).portfolio.cash =
        s.portfolio.cash + (⌊s.portfolio.cash / sig.price / 10⌋ : ℚ) * sig.price ∧
      (executeTrade s sig).portfolio.positions s.selectedSymbol =
        max 0 (s.portfolio.positions s.selectedSymbol - ⌊s.portfolio.cash / sig.price / 10⌋) ∧
      0 ≤ (executeTrade s sig).portfolio.positions s.selectedSymbol) := by
  obtain ⟨a, c, p, re, t⟩ := sig
  cases a
  case BUY =>
    refine ⟨fun _ => ?_, fun h => nomatch h⟩
    refine ⟨?_, ?_⟩
    · simp only [executeTrade, if_pos hq]
    · simp [executeTrade, if_pos hq, setPos]
  case SELL =>
    refine ⟨fun h => (nomatch h), fun _ => ?_⟩
    refine ⟨?_, ?_, ?_⟩
    · simp only [executeTrade, if_pos hq]
    · simp [executeTrade, if_pos hq, setPos]
    · have hmax : (executeTrade s ⟨TradeAction.SELL, c, p, re, t⟩).portfolio.positions
            s.selectedSymbol =
          max 0 (s.portfolio.positions s.selectedSymbol - ⌊s.portfolio.cash / p / 10⌋) := by
        simp [executeTrade, if_pos hq, setPos]
      rw [hmax]
      exact le_max_left 0 _
  case HOLD =>
    exact ⟨fun h => (nomatch h), fun h => (nomatch h)⟩

/-- Claim C3 witness: the BUY clause evaluated on the initial portfolio and a
BUY/80 signal at price 100. -/
theorem c3_ledger_witness :
    (executeTrade initialState wSigBuy100).portfolio.cash =
      initialState.portfolio.cash -
        (⌊initialState.portfolio.cash / wSigBuy100.price / 10⌋ : ℚ) * wSigBuy100.price ∧
    (executeTrade initialState wSigBuy100).portfolio.positions initialState.selectedSymbol =
      initialState.portfolio.positions initialState.selectedSymbol +
        ⌊initialState.portfolio.cash / wSigBuy100.price / 10⌋ :=
  (c3_ledger initialState wSigBuy100 (by norm_num [initialState, wSigBuy100])).1 rfl

theorem tickDispatch_fst (s : DemoState) (o : QuoteOutcome) (fbq : StockQuote) (r : ℚ)
    (remote : RemoteAnalysis) (fba : MarketAnalysis) (now : ℕ) :
    (tickDispatch s o fbq r remote fba now).1 =
      { s with
        currentQuote := some (quoteOf o fbq)
        apiStatus := tickStatus o
        priceData := sliceLast 50 (s.priceData ++ [tickPoint o fbq r now])
        aiThinking := true } := by
  cases o <;> rfl

theorem tickDispatch_snd (s : DemoState) (o : QuoteOutcome) (fbq : StockQuote) (r : ℚ)
    (remote : RemoteAnalysis) (fba : MarketAnalysis) (now : ℕ) :
    (tickDispatch s o fbq r remote fba now).2 =
      { price := (quoteOf o fbq).price
        analysis := (resolveAnalysis (tickStatus o) remote fba).1
        errorPath := (resolveAnalysis (tickStatus o) remote fba).2 } := by
  cases o <;> rfl

theorem publishAnalysis_currentSignal (s : DemoState) (price : ℚ) (a : MarketAnalysis)
    (err : Bool) (now : ℕ) :
    (publishAnalysis s price a err now).currentSignal = some (mkSignal a price now) := by
  cases err <;> simp only [publishAnalysis] <;> split_ifs <;>
    simp [executeTrade_currentSignal]

theorem publishAnalysis_priceData (s : DemoState) (price : ℚ) (a : MarketAnalysis)
    (err : Bool) (now : ℕ) :
    (publishAnalysis s price a err now).priceData = s.priceData := by
  cases err <;> simp only [publishAnalysis] <;> split_ifs <;>
    simp [executeTrade_priceData]

theorem publishAnalysis_currentQuote (s : DemoState) (price : ℚ) (a : MarketAnalysis)
    (err : Bool) (now : ℕ) :
    (publishAnalysis s price a err now).currentQuote = s.currentQuote := by
  cases err <;> simp only [publishAnalysis] <;> split_ifs <;>
    simp [executeTrade_currentQuote]

theorem publishAnalysis_apiStatus (s : DemoState) (price : ℚ) (a : MarketAnalysis)
    (err : Bool) (now : ℕ) :
    (publishAnalysis s price a err now).apiStatus = s.apiStatus := by
  cases err <;> simp only [publishAnalysis] <;> split_ifs <;>
    simp [executeTrade_apiStatus]

theorem publishAnalysis_tradeHistory (s : DemoState) (price : ℚ) (a : MarketAnalysis)
    (err : Bool) (now : ℕ) :
    (publishAnalysis s price a err now).tradeHistory =
      if err = false ∧ 75 < a.confidence ∧ a.action ≠ TradeAction.HOLD ∧
          0 < ⌊s.portfolio.cash / price / 10⌋ then
        mkTrade s (mkSignal a price now) :: s.tradeHistory.take 9
      else s.tradeHistory := by
  cases err
  case true =>
    simp [publishAnalysis]
  case false =>
    simp only [publishAnalysis, Bool.false_eq_true, if_false, eq_self_iff_true, true_and]
    by_cases hc : 75 < a.confidence ∧ a.action ≠ TradeAction.HOLD
    · rw [if_pos hc, executeTrade_tradeHistory]
      by_cases hq : 0 < ⌊s.portfolio.cash / (mkSignal a price now).price / 10⌋
      · rw [if_pos hq, if_pos ⟨hc.1, hc.2, hq⟩]
        rfl
      · have hnot : ¬(75 < a.confidence ∧ a.action ≠ TradeAction.HOLD ∧
            0 < ⌊s.portfolio.cash / price / 10⌋) := fun hfull => hq hfull.2.2
        rw [if_neg hq, if_neg hnot]
    · have hnot : ¬(75 < a.confidence ∧ a.action ≠ TradeAction.HOLD ∧
          0 < ⌊s.portfolio.cash / price / 10⌋) := fun hfull => hc ⟨hfull.1, hfull.2.1⟩
      rw [if_neg hc, if_neg hnot]

/-- The lower bound that keeps BUYs solvent: with non-negative cash and a positive
price, the sized cost `floor(cash / price / 10) * price` never exceeds cash. -/
theorem sized_cost_le_cash (cash price : ℚ) (hc : 0 ≤ cash) (hp : 0 < price) :
    (⌊cash / price / 10⌋ : ℚ) * price ≤ cash := by
  have h1 : (⌊cash / price / 10⌋ : ℚ) ≤ cash / price / 10 := Int.floor_le _
  have h2 : (⌊cash / price / 10⌋ : ℚ) * price ≤ cash / price / 10 * price :=
    mul_le_mul_of_nonneg_right h1 hp.le
  have h3 : cash / price / 10 * price = cash / 10 := by
    field_simp
    ring
  have h4 : cash / 10 ≤ cash := by linarith
  calc (⌊cash / price / 10⌋ : ℚ) * price ≤ cash / price / 10 * price := h2
    _ = cash / 10 := h3
    _ ≤ cash := h4

/-- Claim C1 (amended): on a tick, a Trade is prepended to the history exactly when
the analysis that the published Signal is built from was not obtained through the
error-recovery path, its confidence exceeds 75, its action is not HOLD, and the
sized quantity `floor(cash / price / 10)` is positive; otherwise the history is
unchanged. -/
theorem c1_trade_iff (s : DemoState) (o : QuoteOutcome) (fbq : StockQuote) (r : ℚ)
    (remote : RemoteAnalysis) (fba : MarketAnalysis) (now : ℕ) :
    (fetchRealData s o fbq r remote fba now).tradeHistory =
      if (resolveAnalysis (tickStatus o) remote fba).2 = false ∧
          75 < (resolveAnalysis (tickStatus o) remote fba).1.confidence ∧
          (resolveAnalysis (tickStatus o) remote fba).1.action ≠ TradeAction.HOLD ∧
          0 < ⌊s.portfolio.cash / (quoteOf o fbq).price / 10⌋ then
        mkTrade s (mkSignal (resolveAnalysis (tickStatus o) remote fba).1
          (quoteOf o fbq).price now) :: s.tradeHistory.take 9
      else s.tradeHistory := by
  show (publishAnalysis _ _ _ _ _).tradeHistory = _
  rw [tickDispatch_fst, tickDispatch_snd, publishAnalysis_tradeHistory]
  rfl

/-- Claim C1 counterexample: a tick on the initial portfolio with fallback quote
price 2000 publishes a BUY signal at confidence 80 (so `confidence > 75` and
`action ≠ HOLD` both hold) and still records no Trade, because the sized
quantity `floor(10000 / 2000 / 10)` is zero. -/
theorem c1_iff_counterexample :
    c1Tick.currentSignal =
      some { action := TradeAction.BUY, confidence := 80, price := 2000,
             reasoning := "Fallback momentum", timestamp := 0 } ∧
    c1Tick.tradeHistory = [] := by
  constructor
  · show (publishAnalysis _ _ _ _ _).currentSignal = _
    rw [tickDispatch_snd, publishAnalysis_currentSignal]
    rfl
  · show (publishAnalysis _ _ _ _ _).tradeHistory = _
    rw [tickDispatch_fst, tickDispatch_snd, publishAnalysis_tradeHistory]
    rw [if_neg]
    · rfl
    · intro hfull
      have h0 : ⌊initialState.portfolio.cash / (quoteOf QuoteOutcome.failure fbq2000).price
          / 10⌋ = 0 := by
        norm_num [initialState, fbq2000, quoteOf]
      rw [h0] at hfull
      exact absurd hfull.2.2.2 (by norm_num)

/-- Claim C6: every tick is total on all quote/analysis outcomes, including thrown
errors — it always stores exactly one Quote (the fetched one, or the fallback one
when the source returns null or throws), settles the status accordingly, publishes
exactly one Signal carrying that quote's price, and appends exactly one PricePoint
to the capped history. -/
theorem c6_tick_output (s : DemoState) (o : QuoteOutcome) (fbq : StockQuote) (r : ℚ)
    (remote : RemoteAnalysis) (fba : MarketAnalysis) (now : ℕ) :
    (fetchRealData s o fbq r remote fba now).currentQuote = some (quoteOf o fbq) ∧
    (fetchRealData s o fbq r remote fba now).apiStatus = tickStatus o ∧
    (fetchRealData s o fbq r remote fba now).currentSignal =
      some (mkSignal (resolveAnalysis (tickStatus o) remote fba).1 (quoteOf o fbq).price now) ∧
    (fetchRealData s o fbq r remote fba now).priceData =
      sliceLast 50 (s.priceData ++ [tickPoint o fbq r now]) ∧
    (fetchRealData s o fbq r remote fba now).priceData.length =
      min (s.priceData.length + 1) 50 := by
  have hquote : (fetchRealData s o fbq r remote fba now).currentQuote = some (quoteOf o fbq) := by
    show (publishAnalysis _ _ _ _ _).currentQuote = _
    rw [publishAnalysis_currentQuote, tickDispatch_fst]
  have hstatus : (fetchRealData s o fbq r remote fba now).apiStatus = tickStatus o := by
    show (publishAnalysis _ _ _ _ _).apiStatus = _
    rw [publishAnalysis_apiStatus, tickDispatch_fst]
  have hsignal : (fetchRealData s o fbq r remote fba now).currentSignal =
      some (mkSignal (resolveAnalysis (tickStatus o) remote fba).1 (quoteOf o fbq).price now) := by
    show (publishAnalysis _ _ _ _ _).currentSignal = _
    rw [tickDispatch_snd, publishAnalysis_currentSignal]
  have hdata : (fetchRealData s o fbq r remote fba now).priceData =
      sliceLast 50 (s.priceData ++ [tickPoint o fbq r now]) := by
    show (publishAnalysis _ _ _ _ _).priceData = _
    rw [publishAnalysis_priceData, tickDispatch_fst]
  refine ⟨hquote, hstatus, hsignal, hdata, ?_⟩
  rw [hdata, length_sliceLast, List.length_append, List.length_singleton]

theorem executeTrade_tradeHistory_length_le (s : DemoState) (sig : TradeSignal)
    (h : s.tradeHistory.length ≤ 10) :
    (executeTrade s sig).tradeHistory.length ≤ 10 := by
  rw [executeTrade_tradeHistory]
  split_ifs
  · have := List.length_take_le 9 s.tradeHistory
    simp only [List.length_cons]
    omega
  · exact h

theorem publishAnalysis_tradeHistory_length_le (s : DemoState) (price : ℚ)
    (a : MarketAnalysis) (err : Bool) (now : ℕ) (h : s.tradeHistory.length ≤ 10) :
    (publishAnalysis s price a err now).tradeHistory.length ≤ 10 := by
  rw [publishAnalysis_tradeHistory]
  split_ifs
  · have := List.length_take_le 9 s.tradeHistory
    simp only [List.length_cons]
    omega
  · exact h

theorem runEffect_caps (d : DemoState) (o : QuoteOutcome) (fbq : StockQuote) (r : ℚ)
    (remote : RemoteAnalysis) (fba : MarketAnalysis) (now : ℕ) (pend : List Pending)
    (hp : d.priceData.length ≤ 50) (ht : d.tradeHistory.length ≤ 10) :
    (runEffect d o fbq r remote fba now pend).demo.priceData.length ≤ 50 ∧
    (runEffect d o fbq r remote fba now pend).demo.tradeHistory.length ≤ 10 := by
  unfold runEffect
  split_ifs
  · constructor
    · show ((tickDispatch d o fbq r remote fba now).1).priceData.length ≤ 50
      rw [tickDispatch_fst]
      exact length_sliceLast_le 50 _
    · show ((tickDispatch d o fbq r remote fba now).1).tradeHistory.length ≤ 10
      rw [tickDispatch_fst]
      exact ht
  · exact ⟨hp, ht⟩

/-- Claim C5: after any event the price history holds at most 50 entries and the
trade history at most 10; and at the caps the evicted entry is the oldest one —
the head of the oldest-first price list, the last element of the newest-first
trade list. -/
theorem c5_caps_fifo (sys : SysState) (e : Event)
    (hp : sys.demo.priceData.length ≤ 50) (ht : sys.demo.tradeHistory.length ≤ 10) :
    ((sysStep sys e).demo.priceData.length ≤ 50 ∧
      (sysStep sys e).demo.tradeHistory.length ≤ 10) ∧
    (∀ (s : DemoState) (o : QuoteOutcome) (fbq : StockQuote) (r : ℚ)
        (remote : RemoteAnalysis) (fba : MarketAnalysis) (now : ℕ),
      s.priceData.length = 50 →
      (tickDispatch s o fbq r remote fba now).1.priceData =
        s.priceData.drop 1 ++ [tickPoint o fbq r now]) ∧
    (∀ (s : DemoState) (sig : TradeSignal), s.tradeHistory.length = 10 →
      0 < ⌊s.portfolio.cash / sig.price / 10⌋ →
      (executeTrade s sig).tradeHistory = mkTrade s sig :: s.tradeHistory.dropLast) := by
  refine ⟨?_, ?_, ?_⟩
  · cases e
    case start o fbq r remote fba now =>
      exact runEffect_caps (startDemo sys.demo) o fbq r remote fba now sys.pending
        (by simp [startDemo]) (by simp [startDemo])
    case stop =>
      exact ⟨hp, ht⟩
    case reset =>
      simp [sysStep, resetDemo]
    case selectSymbol sym o fbq r remote fba now =>
      exact runEffect_caps { sys.demo with selectedSymbol := sym } o fbq r remote fba now
        sys.pending hp ht
    case timerTick o fbq r remote fba now =>
      exact runEffect_caps sys.demo o fbq r remote fba now sys.pending hp ht
    case deliver now =>
      obtain ⟨d, pend⟩ := sys
      cases pend with
      | nil => exact ⟨hp, ht⟩
      | cons p rest =>
        constructor
        · show (publishAnalysis d p.price p.analysis p.errorPath now).priceData.length ≤ 50
          rw [publishAnalysis_priceData]
          exact hp
        · exact publishAnalysis_tradeHistory_length_le d p.price p.analysis p.errorPath now ht
  · intro s o fbq r remote fba now h
    rw [tickDispatch_fst]
    show sliceLast 50 (s.priceData ++ [tickPoint o fbq r now]) = _
    unfold sliceLast
    rw [List.length_append, h, List.length_singleton]
    rw [List.drop_append_of_le_length (by omega : 50 + 1 - 50 ≤ (s.priceData).length)]
  · intro s sig h hq
    rw [executeTrade_tradeHistory, if_pos hq, List.dropLast_eq_take, h]

/-- Claim C5 witness: the cap clause evaluated on the freshly mounted component
receiving a Stop click. -/
theorem c5_caps_fifo_witness :
    (sysStep initialSys Event.stop).demo.priceData.length ≤ 50 ∧
    (sysStep initialSys Event.stop).demo.tradeHistory.length ≤ 10 :=
  (c5_caps_fifo initialSys Event.stop (by simp [initialSys, initialState])
    (by simp [initialSys, initialState])).1

theorem buy_eq_hold_false : (TradeAction.BUY = TradeAction.HOLD) = False := by
  decide

/-- Claim C2: the code-level failure.  Start dispatches a tick whose analysis is
still inside its 1.5 s thinking delay; Stop then halts the session (no signal, no
trade so far); yet when the delayed continuation resumes it publishes the stale
Signal and even executes a Trade, although the session is no longer running —
`analyzeAndTrade` never re-checks `isRunning` after its awaits. -/
theorem c2_publish_after_stop :
    c2Stopped.demo.isRunning = false ∧
    c2Stopped.demo.currentSignal = none ∧
    c2Stopped.demo.tradeHistory = [] ∧
    c2Delivered.demo.isRunning = false ∧
    c2Delivered.demo.currentSignal =
      some { action := TradeAction.BUY, confidence := 80, price := 150,
             reasoning := "Fallback momentum", timestamp := 1 } ∧
    c2Delivered.demo.tradeHistory =
      [{ symbol := "AAPL", action := TradeAction.BUY, quantity := 6, price := 150,
         timestamp := 1, confidence := 80, reasoning := "Fallback momentum" }] := by
  have hq : ⌊(10000 : ℚ) / 150 / 10⌋ = 6 := by norm_num
  refine ⟨rfl, rfl, rfl, ?_, ?_, ?_⟩ <;>
    norm_num [c2Delivered, c2Stopped, c2Started, initialSys, initialState, sysStep,
      runEffect, startDemo, stopDemo, tickDispatch, resolveAnalysis, publishAnalysis,
      mkSignal, executeTrade, mkTrade, setPos, sliceLast, mkPricePoint, fbq150,
      fbaBuy80, hq, buy_eq_hold_false]

/-- Claim C4: trade execution sizes every trade as `floor(cash / price / 10)`
(general clause); with cash 10000 and price 100 that quantity is 10; and in the
fallback scenario (first tick after Start, source down, fallback price 150.00,
fallback analysis BUY/80) the executed trade has quantity 6, leaving cash 9100
and a position of 6. -/
theorem c4_sizing :
    (∀ (s : DemoState) (sig : TradeSignal), 0 < ⌊s.portfolio.cash / sig.price / 10⌋ →
      (executeTrade s sig).tradeHistory = mkTrade s sig :: s.tradeHistory.take 9 ∧
      (mkTrade s sig).quantity = ⌊s.portfolio.cash / sig.price / 10⌋) ∧
    (mkTrade initialState wSigBuy100).quantity = 10 ∧
    c4FirstTick.tradeHistory =
      [{ symbol := "AAPL", action := TradeAction.BUY, quantity := 6, price := 150,
         timestamp := 0, confidence := 80, reasoning := "Fallback momentum" }] ∧
    c4FirstTick.portfolio.cash = 9100 ∧
    c4FirstTick.portfolio.positions "AAPL" = 6 := by
  have hq : ⌊(10000 : ℚ) / 150 / 10⌋ = 6 := by norm_num
  refine ⟨?_, ?_, ?_, ?_, ?_⟩
  · intro s sig h
    exact ⟨by rw [executeTrade_tradeHistory, if_pos h], rfl⟩
  · norm_num [mkTrade, initialState, wSigBuy100]
  all_goals
    norm_num [c4FirstTick, fetchRealData, tickDispatch, resolveAnalysis, publishAnalysis,
      mkSignal, executeTrade, mkTrade, setPos, sliceLast, mkPricePoint, startDemo,
      initialState, fbq150, fbaBuy80, hq, buy_eq_hold_false]

/-- Claim C4 witness: the sizing clause evaluated on the initial portfolio and a
BUY/80 signal at price 100 (quantity `floor(10000 / 100 / 10)`). -/
theorem c4_sizing_witness :
    (executeTrade initialState wSigBuy100).tradeHistory =
      mkTrade initialState wSigBuy100 :: initialState.tradeHistory.take 9 ∧
    (mkTrade initialState wSigBuy100).quantity =
      ⌊initialState.portfolio.cash / wSigBuy100.price / 10⌋ :=
  c4_sizing.1 initialState wSigBuy100 (by norm_num [initialState, wSigBuy100])

/-- Claim C9 counterexample: with the session running and no price data yet,
selecting TSLA by itself — no timer tick — immediately fetches for the new
symbol: a PricePoint for time 5 is appended, the fallback quote is stored and an
analysis continuation is dispatched.  The symbol change does force an immediate
re-tick. -/
theorem c9_immediate_retick_counterexample :
    c9Running.demo.isRunning = true ∧
    c9Running.demo.priceData = [] ∧
    c9Selected.demo.selectedSymbol = "TSLA" ∧
    c9Selected.demo.priceData =
      [{ time := 5, price := 150, volume := 1000000, prediction := 150 }] ∧
    c9Selected.demo.currentQuote = some fbq150 ∧
    c9Selected.pending = [{ price := 150, analysis := fbaBuy80, errorPath := false }] := by
  refine ⟨rfl, rfl, ?_, ?_, ?_, ?_⟩ <;>
    norm_num [c9Selected, c9Running, sysStep, runEffect, tickDispatch, resolveAnalysis,
      sliceLast, mkPricePoint, initialState, fbq150, fbaBuy80]

/-- Claim C9 (amended): changing the selected symbol while the session is running
re-runs the polling effect, which cancels the old schedule and immediately performs
one fetch for the new symbol (dispatching its analysis) before the 30-second
schedule resumes — an immediate re-tick, not just a new symbol on the next
scheduled tick. -/
theorem c9_select_retick (sys : SysState) (sym : String) (o : QuoteOutcome)
    (fbq : StockQuote) (r : ℚ) (remote : RemoteAnalysis) (fba : MarketAnalysis)
    (now : ℕ) (h : sys.demo.isRunning = true) :
    sysStep sys (Event.selectSymbol sym o fbq r remote fba now) =
      { demo := (tickDispatch { sys.demo with selectedSymbol := sym }
          o fbq r remote fba now).1
        pending := sys.pending ++
          [(tickDispatch { sys.demo with selectedSymbol := sym } o fbq r remote fba now).2] } := by
  simp [sysStep, runEffect, h]

/-- Claim C9 witness: the amended statement evaluated on a concrete running
session selecting TSLA. -/
theorem c9_select_retick_witness :
    sysStep c9Running (Event.selectSymbol "TSLA" QuoteOutcome.failure fbq150 (1/2)
        RemoteAnalysis.unavailable fbaBuy80 5) =
      { demo := (tickDispatch { c9Running.demo with selectedSymbol := "TSLA" }
          QuoteOutcome.failure fbq150 (1/2) RemoteAnalysis.unavailable fbaBuy80 5).1
        pending := c9Running.pending ++
          [(tickDispatch { c9Running.demo with selectedSymbol := "TSLA" }
            QuoteOutcome.failure fbq150 (1/2) RemoteAnalysis.unavailable fbaBuy80 5).2] } :=
  c9_select_retick c9Running "TSLA" QuoteOutcome.failure fbq150 (1/2)
    RemoteAnalysis.unavailable fbaBuy80 5 rfl

/-! Lemmas about the closure-model definitions. -/

theorem executeTradeC_self (s : DemoState) (sig : TradeSignal) :
    executeTradeC s s sig = executeTrade s sig := by
  obtain ⟨a, c, p, re, t⟩ := sig
  cases a <;> simp only [executeTradeC, executeTrade, mkTrade]

theorem tickDispatchC_fst (closure s : DemoState) (o : QuoteOutcome) (fbq : StockQuote)
    (r : ℚ) (remote : RemoteAnalysis) (fba : MarketAnalysis) (now : ℕ) :
    (tickDispatchC closure s o fbq r remote fba now).1 =
      { s with
        currentQuote := some (quoteOf o fbq)
        apiStatus := tickStatus o
        priceData := sliceLast 50 (s.priceData ++ [tickPoint o fbq r now])
        aiThinking := true } := by
  cases o <;> rfl

theorem tickDispatchC_snd (closure s : DemoState) (o : QuoteOutcome) (fbq : StockQuote)
    (r : ℚ) (remote : RemoteAnalysis) (fba : MarketAnalysis) (now : ℕ) :
    (tickDispatchC closure s o fbq r remote fba now).2 =
      { closure := closure
        price := (quoteOf o fbq).price
        analysis := (resolveAnalysis closure.apiStatus remote fba).1
        errorPath := (resolveAnalysis closure.apiStatus remote fba).2 } := by
  cases o <;> rfl

theorem resolveAnalysis_unavailable (status : ApiStatus) (fb : MarketAnalysis) :
    resolveAnalysis status RemoteAnalysis.unavailable fb = (fb, false) := by
  cases status <;> rfl

theorem resolveAnalysis_not_connected (status : ApiStatus) (remote : RemoteAnalysis)
    (fb : MarketAnalysis) (h : status ≠ ApiStatus.connected) :
    resolveAnalysis status remote fb = (fb, false) := by
  cases status
  case connected => exact absurd rfl h
  case fallback => cases remote <;> rfl
  case loading => cases remote <;> rfl

theorem executeTradeC_currentSignal (closure s : DemoState) (sig : TradeSignal) :
    (executeTradeC closure s sig).currentSignal = s.currentSignal := by
  obtain ⟨a, c, p, re, t⟩ := sig
  cases a <;> simp only [executeTradeC] <;> split_ifs <;> rfl

theorem executeTradeC_apiStatus (closure s : DemoState) (sig : TradeSignal) :
    (executeTradeC closure s sig).apiStatus = s.apiStatus := by
  obtain ⟨a, c, p, re, t⟩ := sig
  cases a <;> simp only [executeTradeC] <;> split_ifs <;> rfl

theorem executeTradeC_isRunning (closure s : DemoState) (sig : TradeSignal) :
    (executeTradeC closure s sig).isRunning = s.isRunning := by
  obtain ⟨a, c, p, re, t⟩ := sig
  cases a <;> simp only [executeTradeC] <;> split_ifs <;> rfl

theorem publishAnalysisC_currentSignal (p : PendingC) (s : DemoState) (now : ℕ) :
    (publishAnalysisC p s now).currentSignal = some (mkSignal p.analysis p.price now) := by
  obtain ⟨cl, price, a, err⟩ := p
  cases err <;> simp only [publishAnalysisC] <;> split_ifs <;>
    simp [executeTradeC_currentSignal]

theorem publishAnalysisC_apiStatus (p : PendingC) (s : DemoState) (now : ℕ) :
    (publishAnalysisC p s now).apiStatus = s.apiStatus := by
  obtain ⟨cl, price, a, err⟩ := p
  cases err <;> simp only [publishAnalysisC] <;> split_ifs <;>
    simp [executeTradeC_apiStatus]

/-- Claim C8 counterexample: a tick right after the effect ran on the mounted
component (captured status `loading`).  The quote fetch succeeds, so the tick's
data-source status settles `connected`, and the Analysis Source would return a
SELL/60 recommendation — yet the published Signal is the fallback generator's
HOLD/50, because line 145 reads the stale captured status. -/
theorem c8_stale_status_counterexample :
    c8StaleTick.apiStatus = ApiStatus.connected ∧
    c8StaleTick.currentSignal = some (mkSignal wFbA 120 3) ∧
    mkSignal wFbA 120 3 ≠ mkSignal wRemoteA 120 3 := by
  refine ⟨?_, ?_, ?_⟩
  · show (publishAnalysisC _ _ _).apiStatus = _
    rw [publishAnalysisC_apiStatus, tickDispatchC_fst]
    rfl
  · show (publishAnalysisC _ _ _).currentSignal = _
    rw [tickDispatchC_snd, publishAnalysisC_currentSignal]
    rfl
  · intro h
    have := congrArg TradeSignal.action h
    simp [mkSignal, wFbA, wRemoteA] at this

/-- Claim C8 (amended): the recommendation is requested from the Analysis Source
iff the `apiStatus` captured when the polling effect last ran is `connected` —
not the status the tick itself settles; its result is used when it succeeds, and
the fallback on a null result or a thrown request.  When the captured status is
not `connected` the remote outcome is never consulted (the result is the same
whatever it would have been) and the fallback generator's analysis is published —
even on a tick whose own status settles `connected`. -/
theorem c8_analysis_source_stale (closure s : DemoState) (price : ℚ)
    (fb : MarketAnalysis) (now : ℕ) :
    (∀ a : MarketAnalysis, closure.apiStatus = ApiStatus.connected →
      analyzeAndTradeC closure s price (RemoteAnalysis.success a) fb now =
        publishAnalysisC { closure := closure, price := price, analysis := a, errorPath := false }
          { s with aiThinking := true } now) ∧
    (closure.apiStatus = ApiStatus.connected →
      analyzeAndTradeC closure s price RemoteAnalysis.unavailable fb now =
        publishAnalysisC { closure := closure, price := price, analysis := fb, errorPath := false }
          { s with aiThinking := true } now ∧
      analyzeAndTradeC closure s price RemoteAnalysis.failure fb now =
        publishAnalysisC { closure := closure, price := price, analysis := fb, errorPath := true }
          { s with aiThinking := true } now) ∧
    (closure.apiStatus ≠ ApiStatus.connected →
      ∀ r1 r2 : RemoteAnalysis,
        analyzeAndTradeC closure s price r1 fb now =
          analyzeAndTradeC closure s price r2 fb now ∧
        analyzeAndTradeC closure s price r1 fb now =
          publishAnalysisC { closure := closure, price := price, analysis := fb, errorPath := false }
            { s with aiThinking := true } now) ∧
    (∀ (o : QuoteOutcome) (fbq : StockQuote) (r : ℚ) (remote : RemoteAnalysis)
        (fba : MarketAnalysis), closure.apiStatus ≠ ApiStatus.connected →
      (fetchRealDataC closure s o fbq r remote fba now).currentSignal =
        some (mkSignal fba (quoteOf o fbq).price now)) := by
  refine ⟨?_, ?_, ?_, ?_⟩
  · intro a h
    simp only [analyzeAndTradeC, resolveAnalysis, h]
  · intro h
    constructor <;> simp only [analyzeAndTradeC, resolveAnalysis, h]
  · intro h r1 r2
    rw [analyzeAndTradeC, analyzeAndTradeC, resolveAnalysis_not_connected _ r1 fb h,
      resolveAnalysis_not_connected _ r2 fb h]
    exact ⟨rfl, rfl⟩
  · intro o fbq r remote fba h
    show (publishAnalysisC _ _ _).currentSignal = _
    rw [tickDispatchC_snd, resolveAnalysis_not_connected _ remote fba h,
      publishAnalysisC_currentSignal]

/-- Claim C8 witness: the connected clause evaluated on a concrete connected
closure with a remote SELL/60 analysis and a distinct fallback. -/
theorem c8_analysis_source_stale_witness :
    analyzeAndTradeC wConnected initialState 100 (RemoteAnalysis.success wRemoteA) wFbA 0 =
      publishAnalysisC { closure := wConnected, price := 100, analysis := wRemoteA, errorPath := false }
        { initialState with aiThinking := true } 0 :=
  (c8_analysis_source_stale wConnected initialState 100 wFbA 0).1 wRemoteA rfl

theorem c10_pair_step (sys : SysStateC) (k : ℕ)
    (hrun : sys.demo.isRunning = true)
    (hclo : sys.closure.portfolio.cash = 10000)
    (hpend : sys.pending = []) :
    (c10Pair sys k).demo.isRunning = true ∧
    (c10Pair sys k).closure = sys.closure ∧
    (c10Pair sys k).pending = [] ∧
    (c10Pair sys k).demo.portfolio.cash = sys.demo.portfolio.cash - 1000 := by
  have hqty : ⌊sys.closure.portfolio.cash / (100 : ℚ) / 10⌋ = 10 := by
    rw [hclo]
    norm_num
  refine ⟨?_, ?_, ?_, ?_⟩ <;>
    norm_num [c10Pair, sysStepC, hrun, hpend, tickDispatchC, resolveAnalysis_unavailable,
      publishAnalysisC, executeTradeC, mkSignal, setPos, sliceLast, mkPricePoint,
      quoteOf, c10Fbq, fbaBuy80, buy_eq_hold_false, hqty]

theorem c10_run_invariant (k : ℕ) :
    (c10Run k).demo.isRunning = true ∧
    (c10Run k).closure = startDemo initialState ∧
    (c10Run k).pending = [] ∧
    (c10Run k).demo.portfolio.cash = 10000 - 1000 * ((k : ℚ) + 1) := by
  induction k with
  | zero =>
      have hq : ⌊(10000 : ℚ) / 100 / 10⌋ = 10 := by norm_num
      refine ⟨?_, ?_, ?_, ?_⟩ <;>
        norm_num [c10Run, c10Start, initialSysC, sysStepC, runEffectC, startDemo,
          initialState, tickDispatchC, resolveAnalysis, publishAnalysisC, executeTradeC,
          mkSignal, setPos, sliceLast, mkPricePoint, quoteOf, c10Fbq, fbaBuy80,
          buy_eq_hold_false, hq]
  | succ k ih =>
      have hstep := c10_pair_step (c10Run k) (k + 1) ih.1
        (by rw [ih.2.1]; rfl) ih.2.2.1
      have hrun : c10Run (k + 1) = c10Pair (c10Run k) (k + 1) := rfl
      refine ⟨?_, ?_, ?_, ?_⟩
      · rw [hrun]
        exact hstep.1
      · rw [hrun, hstep.2.1, ih.2.1]
      · rw [hrun]
        exact hstep.2.2.1
      · rw [hrun, hstep.2.2.2, ih.2.2.2]
        push_cast
        ring

/-- Claim C10 counterexample: after Start and ten BUY deliveries the cash is 0
(non-negative) and every signal in the trace has price 100 (positive); the
eleventh interval tick's trade — sized from the closure's frozen cash of 10000
to quantity 10 — then debits 1000 from the fresh cash and drives it to -1000. -/
theorem c10_negative_cash_counterexample :
    (c10Run 9).demo.portfolio.cash = 0 ∧
    c10Run 10 = sysStepC (sysStepC (c10Run 9) (Event.timerTick QuoteOutcome.failure
      c10Fbq (1/2) RemoteAnalysis.unavailable fbaBuy80 10)) (Event.deliver 10) ∧
    (c10Run 10).demo.portfolio.cash = -1000 := by
  refine ⟨?_, rfl, ?_⟩
  · rw [(c10_run_invariant 9).2.2.2]
    norm_num
  · rw [(c10_run_invariant 10).2.2.2]
    norm_num

/-- Claim C10 (amended): trade execution keeps every symbol's position a
non-negative integer (BUY adds the positive sized quantity, SELL clamps at
zero); but cash non-negativity only holds under the extra assumption that the
cash captured by the effect closure — which line 191 sizes the trade from — does
not exceed the current cash, as on the first trade after an effect run.  Without
that assumption a BUY can spend more than the current cash (see the
counterexample). -/
theorem c10_portfolio_nonneg_stale (closure s : DemoState) (sig : TradeSignal)
    (hc : 0 ≤ s.portfolio.cash) (hp : 0 < sig.price)
    (hpos : ∀ sym, 0 ≤ s.portfolio.positions sym) :
    (∀ sym, 0 ≤ (executeTradeC closure s sig).portfolio.positions sym) ∧
    (closure.portfolio.cash ≤ s.portfolio.cash →
      0 ≤ (executeTradeC closure s sig).portfolio.cash) := by
  obtain ⟨a, c, p, re, t⟩ := sig
  by_cases hq : 0 < ⌊closure.portfolio.cash / p / 10⌋
  · have hccpos : (0 : ℚ) ≤ closure.portfolio.cash := by
      have h1 : ((1 : ℤ) : ℚ) ≤ closure.portfolio.cash / p / 10 := Int.le_floor.1 hq
      have h10 : (0 : ℚ) < p * 10 := by positivity
      have h2 : (0 : ℚ) < closure.portfolio.cash / (p * 10) := by
        rw [← div_div]
        exact lt_of_lt_of_le (by norm_num) h1
      rcases div_pos_iff.mp h2 with ⟨ha, _⟩ | ⟨_, hb⟩
      · exact ha.le
      · linarith
    cases a
    · -- BUY
      constructor
      · intro sym
        have hpos' : (executeTradeC closure s ⟨TradeAction.BUY, c, p, re, t⟩).portfolio.positions
              sym =
            if sym = closure.selectedSymbol then
              s.portfolio.positions closure.selectedSymbol + ⌊closure.portfolio.cash / p / 10⌋
            else s.portfolio.positions sym := by
          simp only [executeTradeC, if_pos hq, setPos]
        rw [hpos']
        split_ifs
        · exact add_nonneg (hpos _) hq.le
        · exact hpos sym
      · intro hle
        have hcost : (⌊closure.portfolio.cash / p / 10⌋ : ℚ) * p ≤ closure.portfolio.cash :=
          sized_cost_le_cash closure.portfolio.cash p hccpos hp
        have hcash : (executeTradeC closure s ⟨TradeAction.BUY, c, p, re, t⟩).portfolio.cash =
            s.portfolio.cash - (⌊closure.portfolio.cash / p / 10⌋ : ℚ) * p := by
          simp only [executeTradeC, if_pos hq]
        rw [hcash]
        linarith
    · -- SELL
      constructor
      · intro sym
        have hpos' : (executeTradeC closure s ⟨TradeAction.SELL, c, p, re, t⟩).portfolio.positions
              sym =
            if sym = closure.selectedSymbol then
              max 0 (s.portfolio.positions closure.selectedSymbol -
                ⌊closure.portfolio.cash / p / 10⌋)
            else s.portfolio.positions sym := by
          simp only [executeTradeC, if_pos hq, setPos]
        rw [hpos']
        split_ifs
        · exact le_max_left 0 _
        · exact hpos sym
      · intro _
        have hrev : (0 : ℚ) ≤ (⌊closure.portfolio.cash / p / 10⌋ : ℚ) * p := by
          have h0 : (0 : ℚ) < (⌊closure.portfolio.cash / p / 10⌋ : ℚ) := by
            exact_mod_cast hq
          positivity
        have hcash : (executeTradeC closure s ⟨TradeAction.SELL, c, p, re, t⟩).portfolio.cash =
            s.portfolio.cash + (⌊closure.portfolio.cash / p / 10⌋ : ℚ) * p := by
          simp only [executeTradeC, if_pos hq]
        rw [hcash]
        linarith
    · -- HOLD
      have hstate : (executeTradeC closure s ⟨TradeAction.HOLD, c, p, re, t⟩).portfolio =
          s.portfolio := by
        simp only [executeTradeC, if_pos hq]
      rw [hstate]
      exact ⟨hpos, fun _ => hc⟩
  · have hstate : executeTradeC closure s ⟨a, c, p, re, t⟩ = s := by
      simp only [executeTradeC, if_neg hq]
    rw [hstate]
    exact ⟨hpos, fun _ => hc⟩

/-- Claim C10 witness: the cash clause evaluated with the closure equal to the
current state (the first trade after an effect run), on the initial portfolio
and a BUY/80 signal at price 100. -/
theorem c10_portfolio_nonneg_stale_witness :
    0 ≤ (executeTradeC initialState initialState wSigBuy100).portfolio.cash :=
  (c10_portfolio_nonneg_stale initialState initialState wSigBuy100
    (by norm_num [initialState]) (by norm_num [wSigBuy100])
    (fun sym => le_refl 0)).2 (le_refl _)

end LiveTradingDemo
